import Mathlib

/-!
Verification of the MCP Streamable HTTP client demo script
(`examples/python-mcp-client/example.py`).

The script is straight-line Python driving one session lifecycle over HTTP:
initialize, initialized notification, tools/list, tools/call, DELETE close.
We embed it shallowly: JSON values become an inductive `Json`, each HTTP
exchange becomes a pure step function over the response the environment
supplies, and the whole `main` becomes `run : Env → List Event × Except
PyError ScriptOutput`, where the event list records every network request
actually issued (in order) and the `Except` value is the script's outcome
(`Except.error` models an uncaught Python exception aborting the run).
-/

/-- JSON values, as produced by `resp.json()`. Numbers are modelled as
integers: every number the script touches (`id`, statuses) is integral. -/
inductive Json where
  | null
  | bool (b : Bool)
  | num (n : Int)
  | str (s : String)
  | arr (elems : List Json)
  | obj (fields : List (String × Json))

/-- Python dictionary indexing `d[k]`: the first binding of `k`, `none` when
the key is absent or the value is not a dict (Python raises KeyError
resp. TypeError; both abort the script, and we collapse them into one
lookup-failure error below). -/
def Json.getField : Json → String → Option Json
  | .obj fields, key => fields.lookup key
  | _, _ => none

/-- Whether a key is present (`k in d`). -/
def Json.hasField (j : Json) (key : String) : Bool :=
  (j.getField key).isSome

/-- Top-level keys of an object, in insertion order. -/
def Json.keys : Json → List String
  | .obj fields => fields.map (fun p => p.1)
  | _ => []

/-- Python truthiness of a JSON value (`if result.get("isError"):`). -/
def Json.truthy : Json → Bool
  | .null => false
  | .bool b => b
  | .num n => n != 0
  | .str s => s != ""
  | .arr elems => !elems.isEmpty
  | .obj fields => !fields.isEmpty

/-- Truthiness of `d.get(k)`: a missing key yields `None`, which is falsy. -/
def truthyOpt : Option Json → Bool
  | none => false
  | some j => j.truthy

/-- ASCII lower-casing of one character (header names are ASCII). -/
def asciiLower (c : Char) : Char :=
  if 65 ≤ c.toNat && c.toNat ≤ 90 then Char.ofNat (c.toNat + 32) else c

/-- ASCII lower-casing of a header name, as `str.lower()` performs on them. -/
def lowerString (s : String) : String :=
  String.mk (s.data.map asciiLower)

/-- Case-insensitive header lookup, as `httpx.Headers` provides
(`resp.headers["mcp-session-id"]` finds a header sent as `Mcp-Session-Id`). -/
def headerLookup (hs : List (String × String)) (key : String) : Option String :=
  (hs.find? (fun p => lowerString p.1 == lowerString key)).map (fun p => p.2)

/-- `httpx.Response.raise_for_status` passes exactly the 2xx range. -/
def statusOk (s : Nat) : Bool :=
  200 ≤ s && s < 300

/-- The Python exceptions the script can die of. `lookupError` collapses
KeyError / IndexError / TypeError from indexing, tagged with the failing
access for readability. -/
inductive PyError where
  | transportError
  | httpStatusError (status : Nat)
  | lookupError (what : String)
deriving DecidableEq

/-- An HTTP response as the script observes it: status code, headers and the
already-parsed JSON body (`resp.json()`). -/
structure HttpResponse where
  status : Nat
  headers : List (String × String)
  body : Json

/-- What one network send produces: either a transport-level exception raised
by `httpx` (`Except.error ()`) or a delivered response. -/
abbrev TransportResult := Except Unit HttpResponse

/-- The environment: the transport outcome of each of the five requests the
script can issue, in script order. -/
structure Env where
  initResp : TransportResult
  notifyResp : TransportResult
  listResp : TransportResult
  callResp : TransportResult
  deleteResp : TransportResult

/-- The JSON-RPC request builder `jsonrpc(method, params=None, req_id=1)`:
base dict `{jsonrpc, id, method}`, with `params` appended only when truthy
(so `None` and the empty dict are both omitted). -/
def jsonrpc (method : String) (params : Option (List (String × Json)) := none)
    (req_id : Int := 1) : Json :=
  Json.obj ([("jsonrpc", Json.str "2.0"), ("id", Json.num req_id),
             ("method", Json.str method)] ++
    (match params with
     | some ps => if ps.isEmpty then [] else [("params", Json.obj ps)]
     | none => []))

/-- A network request the script issues: a POST with a JSON body and extra
headers, or the closing DELETE. -/
inductive Event where
  | post (body : Json) (headers : List (String × String))
  | delete (headers : List (String × String))

/-- The extra headers attached to a request. -/
def Event.headers : Event → List (String × String)
  | .post _ hs => hs
  | .delete hs => hs

/-- Whether the request is the session-terminating DELETE. -/
def Event.isDelete : Event → Bool
  | .delete _ => true
  | _ => false

/-- The JSON-RPC id carried by a request body, when there is one. -/
def Event.reqId : Event → Option Int
  | .post b _ =>
    match b.getField "id" with
    | some (Json.num n) => some n
    | _ => none
  | .delete _ => none

/-- The headers dict built after initialize: `{"Mcp-Session-Id": session_id}`. -/
def sessionHeaders (sid : String) : List (String × String) :=
  [("Mcp-Session-Id", sid)]

/-- Data extracted by a successful step 1: the session id from the
`Mcp-Session-Id` header and the two `serverInfo` fields the script prints. -/
structure InitOk where
  sessionId : String
  serverName : Json
  serverVersion : Json

/-- Step 1 of the script:
`resp.raise_for_status()`; `session_id = resp.headers["mcp-session-id"]`;
`server_info = resp.json()["result"]["serverInfo"]`; then the f-string reads
`server_info["name"]` and `server_info["version"]`. Each failing access is
the Python exception that aborts the run at that point. -/
def initializeStep (r : TransportResult) : Except PyError InitOk :=
  match r with
  | .error _ => .error .transportError
  | .ok resp =>
    if statusOk resp.status then
      match headerLookup resp.headers "mcp-session-id" with
      | none => .error (.lookupError "mcp-session-id")
      | some sid =>
        match resp.body.getField "result" with
        | none => .error (.lookupError "result")
        | some res =>
          match res.getField "serverInfo" with
          | none => .error (.lookupError "serverInfo")
          | some info =>
            match info.getField "name" with
            | none => .error (.lookupError "name")
            | some nm =>
              match info.getField "version" with
              | none => .error (.lookupError "version")
              | some vr => .ok ⟨sid, nm, vr⟩
    else .error (.httpStatusError resp.status)

/-- The session lifecycle states named by the documentation. -/
inductive SessionState where
  | uninitialized
  | initializing
  | active
  | closed
  | failed
deriving DecidableEq

/-- The state the session is in right after the initialize exchange, read off
the script's control flow: execution continuing past step 1 is `Active`,
aborting with an exception is `Failed` (the script keeps no state variable). -/
def stateAfterInit (r : TransportResult) : SessionState :=
  match initializeStep r with
  | .ok _ => .active
  | .error _ => .failed

/-- Python slicing `x[:80]`: defined on strings and lists, a TypeError on
anything else (relevant because `t.get("description", "")` may return any
JSON value). -/
def pySlice80 : Json → Option Json
  | .str s => some (.str (s.take 80))
  | .arr elems => some (.arr (elems.take 80))
  | _ => none

/-- One iteration of the tools loop: reads `t["name"]` and slices
`t.get("description", "")[:80]`. -/
def describeTool (t : Json) : Except PyError (Json × Json) :=
  match t.getField "name" with
  | none => .error (.lookupError "name")
  | some nm =>
    match pySlice80 ((t.getField "description").getD (Json.str "")) with
    | none => .error (.lookupError "description slice")
    | some d => .ok (nm, d)

/-- Step 3: `raise_for_status`, `tools = resp.json()["result"]["tools"]`,
`len(tools)` (a TypeError unless it is a list), then the printing loop over
the tools in server order. -/
def listStep (r : TransportResult) : Except PyError (List (Json × Json)) :=
  match r with
  | .error _ => .error .transportError
  | .ok resp =>
    if statusOk resp.status then
      match resp.body.getField "result" with
      | none => .error (.lookupError "result")
      | some res =>
        match res.getField "tools" with
        | none => .error (.lookupError "tools")
        | some ts =>
          match ts with
          | .arr elems => elems.mapM describeTool
          | _ => .error (.lookupError "len(tools)")
    else .error (.httpStatusError resp.status)

/-- What the caller receives from the tools/call handling: the tool-level
failure branch or the success branch, each carrying `result.content[0].text`. -/
inductive ToolOutcome where
  | toolError (msg : Json)
  | success (msg : Json)

/-- The indexing chain `result["content"][0]["text"]`, performed identically
in both branches of step 4. -/
def contentFirstText (result : Json) : Except PyError Json :=
  match result.getField "content" with
  | none => .error (.lookupError "content")
  | some (Json.arr []) => .error (.lookupError "content[0]")
  | some (Json.arr (x :: _)) =>
    match x.getField "text" with
    | none => .error (.lookupError "text")
    | some t => .ok t
  | some _ => .error (.lookupError "content[0]")

/-- The branch on `result.get("isError")`: truthy goes to the tool-error
print, otherwise the success print; both index `content[0]["text"]`. -/
def handleCallResult (result : Json) : Except PyError ToolOutcome :=
  if truthyOpt (result.getField "isError") then
    (contentFirstText result).map ToolOutcome.toolError
  else
    (contentFirstText result).map ToolOutcome.success

/-- Step 4 after the status check: `result = resp.json()["result"]`, then the
isError discrimination. -/
def callToolStep (body : Json) : Except PyError ToolOutcome :=
  match body.getField "result" with
  | none => .error (.lookupError "result")
  | some result => handleCallResult result

/-- Step 4 in full: transport, `raise_for_status`, then `callToolStep`. -/
def callStep (r : TransportResult) : Except PyError ToolOutcome :=
  match r with
  | .error _ => .error .transportError
  | .ok resp =>
    if statusOk resp.status then callToolStep resp.body
    else .error (.httpStatusError resp.status)

/-- The initialize request: `jsonrpc("initialize")`, no extra headers. -/
def initEvent : Event :=
  Event.post (jsonrpc "initialize") []

/-- The notification body: a literal dict with no `id` key. -/
def notifyBody : Json :=
  Json.obj [("jsonrpc", Json.str "2.0"),
            ("method", Json.str "notifications/initialized")]

/-- The `params` dict of the demo tools/call. -/
def callParams : List (String × Json) :=
  [("name", Json.str "ls"),
   ("arguments", Json.obj [("path", Json.str ".")])]

/-- Everything a completed run has produced. -/
structure ScriptOutput where
  init : InitOk
  tools : List (Json × Json)
  toolOutcome : ToolOutcome
  deleteStatus : Nat

/-- The whole of `main` under a given environment: the ordered list of
network requests actually issued, paired with the script's outcome. A
request whose send raises a transport exception still appears in the list
(it was attempted); the exception then aborts the run. The `with` block only
releases the HTTP client on abort — it does not send the DELETE. -/
def run (env : Env) : List Event × Except PyError ScriptOutput :=
  match initializeStep env.initResp with
  | .error e => ([initEvent], .error e)
  | .ok i =>
    let hs := sessionHeaders i.sessionId
    let ev2 := [initEvent, Event.post notifyBody hs]
    match env.notifyResp with
    | .error _ => (ev2, .error .transportError)
    | .ok _ =>
      let ev3 := ev2 ++ [Event.post (jsonrpc "tools/list" none 2) hs]
      match listStep env.listResp with
      | .error e => (ev3, .error e)
      | .ok ts =>
        let ev4 := ev3 ++ [Event.post (jsonrpc "tools/call" (some callParams) 3) hs]
        match callStep env.callResp with
        | .error e => (ev4, .error e)
        | .ok oc =>
          let ev5 := ev4 ++ [Event.delete hs]
          match env.deleteResp with
          | .error _ => (ev5, .error .transportError)
          | .ok dresp => (ev5, .ok ⟨i, ts, oc, dresp.status⟩)

/-- The operations of the Session Client described by the documentation. -/
inductive ClientOp where
  | opInitialize
  | opNotifyInitialized
  | opListTools
  | opCallTool (name : String) (args : Json)
  | opClose

/-- How one Session Client operation ended. -/
inductive OpResult where
  | performed (out : Except PyError Unit)
  | preconditionError
  | closedNoop

/-- The observable effect of one Session Client operation: the next state,
the network requests attempted, and how the operation ended. -/
structure OpOutcome where
  nextState : SessionState
  sends : List Event
  result : OpResult

/-- Modelled from the spec: which operation is allowed in which state. The
repository's source holds only the straight-line demo script; the Session
Client component with state tracking and precondition checks exists only in
the documentation (§4.1): `initialize` requires `Uninitialized`;
`notifyInitialized`, `listTools` and `callTool` (with a non-empty name)
require `Active`; `close` requires `Active` or `Failed`. -/
def opAllowed : SessionState → ClientOp → Bool
  | .uninitialized, .opInitialize => true
  | .active, .opNotifyInitialized => true
  | .active, .opListTools => true
  | .active, .opCallTool name _ => name != ""
  | .active, .opClose => true
  | .failed, .opClose => true
  | _, _ => false

/-- Modelled from the spec: the single network request an allowed operation
issues (the caller supplies the fresh request id; a notification carries
none). -/
def opRequest (sid : String) (reqId : Int) : ClientOp → Event
  | .opInitialize => Event.post (jsonrpc "initialize" none reqId) []
  | .opNotifyInitialized => Event.post notifyBody (sessionHeaders sid)
  | .opListTools => Event.post (jsonrpc "tools/list" none reqId) (sessionHeaders sid)
  | .opCallTool name args =>
    Event.post
      (jsonrpc "tools/call" (some [("name", Json.str name), ("arguments", args)]) reqId)
      (sessionHeaders sid)
  | .opClose => Event.delete (sessionHeaders sid)

/-- Modelled from the spec: one Session Client operation. An operation whose
precondition fails issues no network request and reports a precondition
error; `close` on an already `Closed` session is an idempotent no-op;
otherwise the request is sent and the response `r` is interpreted by the
demo script's own step functions. State transitions follow §4.1:
`initialize` moves to `Active` or `Failed`, `close` moves to `Closed`, the
three mid-session operations keep the state. -/
def clientStep (s : SessionState) (sid : String) (reqId : Int) (op : ClientOp)
    (r : TransportResult) : OpOutcome :=
  if opAllowed s op then
    match op with
    | .opInitialize =>
      match initializeStep r with
      | .ok _ => ⟨.active, [opRequest sid reqId op], .performed (.ok ())⟩
      | .error e => ⟨.failed, [opRequest sid reqId op], .performed (.error e)⟩
    | .opNotifyInitialized =>
      ⟨s, [opRequest sid reqId op],
       .performed (match r with | .error _ => .error .transportError | .ok _ => .ok ())⟩
    | .opListTools =>
      ⟨s, [opRequest sid reqId op], .performed ((listStep r).map (fun _ => ()))⟩
    | .opCallTool _ _ =>
      ⟨s, [opRequest sid reqId op], .performed ((callStep r).map (fun _ => ()))⟩
    | .opClose => ⟨.closed, [opRequest sid reqId op], .performed (.ok ())⟩
  else
    match s, op with
    | .closed, .opClose => ⟨.closed, [], .closedNoop⟩
    | _, _ => ⟨s, [], .preconditionError⟩

/-- The initialize response of the documentation's happy-path scenario. -/
def okInit : HttpResponse :=
  ⟨200, [("Mcp-Session-Id", "abc123")],
   Json.obj [("result", Json.obj [("serverInfo",
     Json.obj [("name", Json.str "demo"), ("version", Json.str "1.0")])])]⟩

/-- A 202 acknowledgment for the initialized notification. -/
def okNotify : HttpResponse := ⟨202, [], Json.null⟩

/-- A tools/list response offering the demo `ls` tool. -/
def okList : HttpResponse :=
  ⟨200, [], Json.obj [("result", Json.obj [("tools", Json.arr
    [Json.obj [("name", Json.str "ls"), ("description", Json.str "list dir")]])])]⟩

/-- A successful tools/call response. -/
def okCall : HttpResponse :=
  ⟨200, [], Json.obj [("result", Json.obj [("isError", Json.bool false),
    ("content", Json.arr [Json.obj [("text", Json.str "file1\nfile2")]])])]⟩

/-- A 200 acknowledgment of the DELETE. -/
def okDelete : HttpResponse := ⟨200, [], Json.null⟩

/-- The all-successful environment. -/
def envAllOk : Env :=
  ⟨.ok okInit, .ok okNotify, .ok okList, .ok okCall, .ok okDelete⟩

/-- An environment where tools/list answers HTTP 500 and everything else
would have succeeded. -/
def envListFails : Env :=
  ⟨.ok okInit, .ok okNotify, .ok ⟨500, [], Json.null⟩, .ok okCall, .ok okDelete⟩

/-- An environment where sending the initialized notification raises a
transport exception and everything else would have succeeded. -/
def envNotifyFails : Env :=
  ⟨.ok okInit, .error (), .ok okList, .ok okCall, .ok okDelete⟩

/-- An environment where initialize answers HTTP 500. -/
def envInit500 : Env :=
  ⟨.ok ⟨500, [], Json.null⟩, .ok okNotify, .ok okList, .ok okCall, .ok okDelete⟩

/-- The five requests of a full run, given the captured session id; an
aborted run issues a proper prefix of them. -/
def fullTrace (sid : String) : List Event :=
  [initEvent,
   Event.post notifyBody (sessionHeaders sid),
   Event.post (jsonrpc "tools/list" none 2) (sessionHeaders sid),
   Event.post (jsonrpc "tools/call" (some callParams) 3) (sessionHeaders sid),
   Event.delete (sessionHeaders sid)]

/-- Whether a tools/call outcome is an uncaught indexing exception. -/
def isLookupFailure : Except PyError ToolOutcome → Bool
  | .error (.lookupError _) => true
  | _ => false

/-- A tools/call response body whose result reports a tool-level error. -/
def toolErrResult : Json :=
  Json.obj [("isError", Json.bool true),
            ("content", Json.arr [Json.obj [("text", Json.str "not found")]])]

/-- A 200 tools/call response whose result has no `content` key. -/
def noContentResp : HttpResponse :=
  ⟨200, [], Json.obj [("result", Json.obj [("isError", Json.bool true)])]⟩

/-- C9: the jsonrpc builder emits exactly the keys jsonrpc, id, method, plus
params exactly when the supplied mapping is non-None and non-empty; the id
is the given req_id, defaulting to 1, the method is the given method, and
the protocol version is the literal "2.0". An empty params dict is omitted
exactly like None. -/
theorem jsonrpc_shape (method : String) (ps : Option (List (String × Json)))
    (i : Int) :
    (jsonrpc method ps i).getField "jsonrpc" = some (Json.str "2.0") ∧
    (jsonrpc method ps i).getField "id" = some (Json.num i) ∧
    (jsonrpc method ps i).getField "method" = some (Json.str method) ∧
    (jsonrpc method).getField "id" = some (Json.num 1) ∧
    ((jsonrpc method ps i).hasField "params" = true ↔ ∃ l, ps = some l ∧ l ≠ []) ∧
    jsonrpc method (some []) i = jsonrpc method none i ∧
    (jsonrpc method ps i).keys = ["jsonrpc", "id", "method"] ++
      (if (jsonrpc method ps i).hasField "params" then ["params"] else []) := by
  refine ⟨rfl, rfl, rfl, rfl, ?_, rfl, ?_⟩
  · rcases ps with _ | l
    · simp [show Json.hasField (jsonrpc method none i) "params" = false from rfl]
    · cases l with
      | nil =>
        simp [show Json.hasField (jsonrpc method (some []) i) "params" = false from rfl]
      | cons p l =>
        simp [show Json.hasField (jsonrpc method (some (p :: l)) i) "params" = true from rfl]
  · rcases ps with _ | l
    · rfl
    · cases l with
      | nil => rfl
      | cons p l => rfl

/-- C1: when the JSON-RPC result is present and `content[0].text` exists, a
truthy `isError` yields the tool-level failure carrying that text and a
falsy or absent `isError` yields the success carrying it; both are ordinary
`Except.ok` outcomes, a different kind from the `Except.error` that a
JSON-RPC error envelope produces (a body without `result`), and the failure
outcome is never an exception. -/
theorem callTool_outcome_discrimination (body result t : Json)
    (hres : body.getField "result" = some result)
    (ht : contentFirstText result = .ok t) :
    (truthyOpt (result.getField "isError") = true →
      callToolStep body = .ok (ToolOutcome.toolError t)) ∧
    (truthyOpt (result.getField "isError") = false →
      callToolStep body = .ok (ToolOutcome.success t)) ∧
    (∀ e : PyError,
      (Except.ok (ToolOutcome.toolError t) : Except PyError ToolOutcome) ≠
        Except.error e) ∧
    (∀ u : Json, ToolOutcome.toolError t ≠ ToolOutcome.success u) := by
  refine ⟨?_, ?_, ?_, ?_⟩
  · intro hT
    simp [callToolStep, hres, handleCallResult, hT, ht, Except.map]
  · intro hF
    simp [callToolStep, hres, handleCallResult, hF, ht, Except.map]
  · intro e h
    exact Except.noConfusion h
  · intro u h
    exact ToolOutcome.noConfusion h

/-- C1 witness: the two scenario responses, one tool-level failure carrying
"not found" and one success carrying the listing payload. -/
theorem callTool_outcome_discrimination_witness :
    callToolStep (Json.obj [("result", toolErrResult)]) =
      .ok (ToolOutcome.toolError (Json.str "not found")) ∧
    callToolStep okCall.body =
      .ok (ToolOutcome.success (Json.str "file1\nfile2")) :=
  ⟨(callTool_outcome_discrimination (Json.obj [("result", toolErrResult)])
      toolErrResult (Json.str "not found") rfl rfl).1 rfl,
   (callTool_outcome_discrimination okCall.body
      (Json.obj [("isError", Json.bool false),
        ("content", Json.arr [Json.obj [("text", Json.str "file1\nfile2")]])])
      (Json.str "file1\nfile2") rfl rfl).2.1 rfl⟩

/-- C10: both branches of the tools/call handling index
`result["content"][0]["text"]` unconditionally, so a 2xx response whose
result lacks `content`, has an empty content array, or whose first content
item lacks `text`, makes the script die of the indexing exception instead
of producing an outcome. -/
theorem callTool_content_indexing (resp : HttpResponse) (result : Json)
    (hst : statusOk resp.status = true)
    (hres : resp.body.getField "result" = some result)
    (hbad : result.getField "content" = none ∨
            result.getField "content" = some (Json.arr []) ∨
            ∃ x xs, result.getField "content" = some (Json.arr (x :: xs)) ∧
              x.getField "text" = none) :
    isLookupFailure (callStep (Except.ok resp)) = true := by
  have hstep : callStep (Except.ok resp) = handleCallResult result := by
    simp [callStep, hst, callToolStep, hres]
  rw [hstep]
  rcases hbad with h | h | ⟨x, xs, hc, hx⟩
  · cases htr : truthyOpt (result.getField "isError") <;>
      simp [handleCallResult, htr, contentFirstText, h, Except.map, isLookupFailure]
  · cases htr : truthyOpt (result.getField "isError") <;>
      simp [handleCallResult, htr, contentFirstText, h, Except.map, isLookupFailure]
  · cases htr : truthyOpt (result.getField "isError") <;>
      simp [handleCallResult, htr, contentFirstText, hc, hx, Except.map, isLookupFailure]

/-- C10 witness: a 200 response whose result has no content key dies of the
lookup exception. -/
theorem callTool_content_indexing_witness :
    isLookupFailure (callStep (Except.ok noContentResp)) = true :=
  callTool_content_indexing noContentResp
    (Json.obj [("isError", Json.bool true)]) rfl rfl (Or.inl rfl)

/-- A successful initialize carries exactly the session id found in the
`Mcp-Session-Id` response header. -/
theorem initializeStep_ok_sessionId (resp : HttpResponse) (i : InitOk)
    (h : initializeStep (Except.ok resp) = .ok i) :
    headerLookup resp.headers "mcp-session-id" = some i.sessionId := by
  rw [initializeStep] at h
  split at h
  · split at h
    next hh => simp at h
    next sid hh =>
      rw [hh]
      split at h
      next => simp at h
      next res hr =>
        split at h
        next => simp at h
        next info hinfo =>
          split at h
          next => simp at h
          next nm hnm =>
            split at h
            next => simp at h
            next vr hvr =>
              injection h with h2
              rw [← h2]
  · simp at h

/-- C2: a 2xx initialize response with the session header and
`result.serverInfo` (with its name and version fields) yields exactly that
session id and server info and leaves the session `Active`; a response
missing the header, or missing `result.serverInfo`, never yields a success,
whatever its status. -/
theorem initialize_success_extracts (resp : HttpResponse) (sid : String)
    (info nm vr : Json)
    (hst : statusOk resp.status = true)
    (hh : headerLookup resp.headers "mcp-session-id" = some sid)
    (hres : (resp.body.getField "result").bind
      (fun r => r.getField "serverInfo") = some info)
    (hn : info.getField "name" = some nm)
    (hv : info.getField "version" = some vr) :
    initializeStep (Except.ok resp) = .ok ⟨sid, nm, vr⟩ ∧
    stateAfterInit (Except.ok resp) = SessionState.active ∧
    (∀ r2 : HttpResponse, headerLookup r2.headers "mcp-session-id" = none →
      (initializeStep (Except.ok r2)).isOk = false) ∧
    (∀ r2 : HttpResponse,
      (r2.body.getField "result").bind (fun r => r.getField "serverInfo") = none →
      (initializeStep (Except.ok r2)).isOk = false) := by
  rcases Option.bind_eq_some.mp hres with ⟨res, hr1, hr2⟩
  have hmain : initializeStep (Except.ok resp) = .ok ⟨sid, nm, vr⟩ := by
    simp [initializeStep, hst, hh, hr1, hr2, hn, hv]
  refine ⟨hmain, by simp [stateAfterInit, hmain], ?_, ?_⟩
  · intro r2 h2
    cases hst2 : statusOk r2.status <;>
      simp [initializeStep, hst2, h2, Except.isOk, Except.toBool]
  · intro r2 h2
    cases hst2 : statusOk r2.status
    · simp [initializeStep, hst2, Except.isOk, Except.toBool]
    · rcases hl : headerLookup r2.headers "mcp-session-id" with _ | sid2
      · simp [initializeStep, hst2, hl, Except.isOk, Except.toBool]
      · rcases hr : r2.body.getField "result" with _ | res2
        · simp [initializeStep, hst2, hl, hr, Except.isOk, Except.toBool]
        · rw [hr] at h2
          simp at h2
          simp [initializeStep, hst2, hl, hr, h2, Except.isOk, Except.toBool]

/-- C2 witness: the documentation's scenario response (header
`Mcp-Session-Id: abc123`, serverInfo demo/1.0) initializes an Active
session with that id and info. -/
theorem initialize_success_extracts_witness :
    initializeStep (Except.ok okInit) =
      .ok ⟨"abc123", Json.str "demo", Json.str "1.0"⟩ ∧
    stateAfterInit (Except.ok okInit) = SessionState.active := by
  have h := initialize_success_extracts okInit "abc123"
    (Json.obj [("name", Json.str "demo"), ("version", Json.str "1.0")])
    (Json.str "demo") (Json.str "1.0") rfl rfl rfl rfl rfl
  exact ⟨h.1, h.2.1⟩

/-- C7: a transport exception or a non-2xx status on initialize leaves the
session `Failed` and aborts the lifecycle at once: the trace is exactly the
one initialize request, no later operation attempts network I/O, and the
script ends with the corresponding error. -/
theorem init_failure_aborts (env : Env) :
    (env.initResp = Except.error () →
      run env = ([initEvent], Except.error PyError.transportError) ∧
      stateAfterInit env.initResp = SessionState.failed) ∧
    (∀ resp : HttpResponse, env.initResp = Except.ok resp →
      statusOk resp.status = false →
      run env = ([initEvent], Except.error (PyError.httpStatusError resp.status)) ∧
      stateAfterInit env.initResp = SessionState.failed) := by
  constructor
  · intro h
    have hi : initializeStep env.initResp = .error .transportError := by
      simp [h, initializeStep]
    exact ⟨by simp [run, hi], by simp [stateAfterInit, hi]⟩
  · intro resp h hst
    have hi : initializeStep env.initResp = .error (.httpStatusError resp.status) := by
      simp [h, initializeStep, hst]
    exact ⟨by simp [run, hi], by simp [stateAfterInit, hi]⟩

/-- C7 witness: initialize answering HTTP 500 aborts the whole run after the
single initialize request and fails the session, although every later
response in that environment would have succeeded. -/
theorem init_failure_aborts_witness :
    run envInit500 = ([initEvent], Except.error (PyError.httpStatusError 500)) ∧
    stateAfterInit envInit500.initResp = SessionState.failed :=
  (init_failure_aborts envInit500).2 ⟨500, [], Json.null⟩ rfl rfl

/-- After a successful initialize, the trace the script issues is one of the
four prefixes of `fullTrace` of length at least 2, depending on where (if
anywhere) it aborts. -/
theorem run_trace_cases (env : Env) (i : InitOk)
    (hi : initializeStep env.initResp = .ok i) :
    (run env).1 = List.take 2 (fullTrace i.sessionId) ∨
    (run env).1 = List.take 3 (fullTrace i.sessionId) ∨
    (run env).1 = List.take 4 (fullTrace i.sessionId) ∨
    (run env).1 = fullTrace i.sessionId := by
  rcases hn : env.notifyResp with u | r
  · exact Or.inl (by simp [run, hi, hn, fullTrace])
  · rcases hl : listStep env.listResp with e | ts
    · exact Or.inr (Or.inl (by simp [run, hi, hn, hl, fullTrace]))
    · rcases hc : callStep env.callResp with e | oc
      · exact Or.inr (Or.inr (Or.inl (by simp [run, hi, hn, hl, hc, fullTrace])))
      · rcases hd : env.deleteResp with u | dr <;>
          exact Or.inr (Or.inr (Or.inr (by simp [run, hi, hn, hl, hc, hd, fullTrace])))

/-- C5: the session id captured from the initialize response header is
attached, unmodified and under the header name `Mcp-Session-Id`, to every
request after the initialize request itself — the initialized notification,
tools/list, tools/call and the closing DELETE all carry exactly
`{"Mcp-Session-Id": session_id}`. -/
theorem session_header_propagation (env : Env) (resp : HttpResponse)
    (sid : String)
    (hr : env.initResp = Except.ok resp)
    (hh : headerLookup resp.headers "mcp-session-id" = some sid) :
    (run env).1.head? = some initEvent ∧
    ∀ e ∈ (run env).1, e = initEvent ∨ Event.headers e = sessionHeaders sid := by
  rcases hi : initializeStep env.initResp with er | i
  · refine ⟨by simp [run, hi], ?_⟩
    intro e he
    simp [run, hi] at he
    exact Or.inl he
  · have hsid : i.sessionId = sid := by
      have h2 := initializeStep_ok_sessionId resp i (hr ▸ hi)
      rw [h2] at hh
      exact Option.some_inj.mp hh
    have hmem : ∀ e ∈ fullTrace i.sessionId,
        e = initEvent ∨ Event.headers e = sessionHeaders sid := by
      intro e he
      rw [fullTrace] at he
      simp only [List.mem_cons, List.not_mem_nil, or_false] at he
      rcases he with h | h | h | h | h <;> rw [h]
      · exact Or.inl rfl
      all_goals exact Or.inr (by rw [hsid]; rfl)
    rcases run_trace_cases env i hi with h | h | h | h <;> rw [h]
    · exact ⟨rfl, fun e he => hmem e (List.take_subset _ _ he)⟩
    · exact ⟨rfl, fun e he => hmem e (List.take_subset _ _ he)⟩
    · exact ⟨rfl, fun e he => hmem e (List.take_subset _ _ he)⟩
    · exact ⟨rfl, fun e he => hmem e he⟩

/-- C5 witness: in the all-successful environment the final DELETE carries
exactly the header captured from initialize. -/
theorem session_header_propagation_witness :
    (run envAllOk).1.head? = some initEvent ∧
    (Event.delete (sessionHeaders "abc123") = initEvent ∨
     Event.headers (Event.delete (sessionHeaders "abc123")) =
       sessionHeaders "abc123") := by
  have h := session_header_propagation envAllOk okInit "abc123" rfl rfl
  refine ⟨h.1, h.2 (Event.delete (sessionHeaders "abc123")) ?_⟩
  rw [show (run envAllOk).1 = fullTrace "abc123" from rfl, fullTrace]
  simp

/-- C6: within one run the JSON-RPC ids carried by the requests that expect
a response (initialize, tools/list, tools/call — the notification and the
DELETE carry none) form a strictly increasing sequence, so no id is ever
reused; the calls are synchronous, each response being awaited before the
next request, so no two requests are simultaneously outstanding. -/
theorem request_ids_strictly_increasing (env : Env) :
    List.Chain' (fun a b : Int => a < b) ((run env).1.filterMap Event.reqId) := by
  rcases hi : initializeStep env.initResp with e | i
  · have ht : (run env).1 = [initEvent] := by simp [run, hi]
    rw [ht]
    exact show List.Chain' (fun a b : Int => a < b) [1] by
      simp [List.chain'_singleton]
  · rcases run_trace_cases env i hi with h | h | h | h <;> rw [h]
    · exact show List.Chain' (fun a b : Int => a < b) [1] by
        simp [List.chain'_singleton]
    · exact show List.Chain' (fun a b : Int => a < b) [1, 2] by
        simp [List.chain'_cons, List.chain'_singleton]
    · exact show List.Chain' (fun a b : Int => a < b) [1, 2, 3] by
        simp [List.chain'_cons, List.chain'_singleton]
    · exact show List.Chain' (fun a b : Int => a < b) [1, 2, 3] by
        simp [List.chain'_cons, List.chain'_singleton]

/-- C3 counterexample: with tools/list answering HTTP 500 (every other
response healthy, the DELETE itself would have succeeded), the script
aborts and never attempts the session-termination DELETE, so close is not
attempted after an upstream failure. -/
theorem close_not_attempted_after_list_failure :
    (run envListFails).1.any Event.isDelete = false ∧
    (run envListFails).2 = Except.error (PyError.httpStatusError 500) ∧
    envListFails.deleteResp = Except.ok okDelete :=
  ⟨rfl, rfl, rfl⟩

/-- C3 amended: the DELETE termination request is attempted exactly when
initialize, the notification send, tools/list and tools/call have all
succeeded; on an upstream failure the exception aborts the script before
the close (only the pooled HTTP transport is released by the context
manager, not the server-side session). -/
theorem delete_attempted_iff_all_steps_ok (env : Env) :
    ((run env).1.any Event.isDelete = true) ↔
    ((∃ i, initializeStep env.initResp = Except.ok i) ∧
     (∃ r, env.notifyResp = Except.ok r) ∧
     (∃ ts, listStep env.listResp = Except.ok ts) ∧
     (∃ oc, callStep env.callResp = Except.ok oc)) := by
  rcases hi : initializeStep env.initResp with e | i
  · simp [run, hi, initEvent, Event.isDelete]
  · rcases hn : env.notifyResp with u | r
    · simp [run, hi, hn, Event.isDelete, initEvent]
    · rcases hl : listStep env.listResp with e | ts
      · simp [run, hi, hn, hl, Event.isDelete, initEvent]
      · rcases hc : callStep env.callResp with e | oc
        · simp [run, hi, hn, hl, hc, Event.isDelete, initEvent]
        · rcases hd : env.deleteResp with u | dr <;>
            simp [run, hi, hn, hl, hc, hd, Event.isDelete, initEvent]

set_option maxRecDepth 4096 in
/-- C8 counterexample: a transport-level failure while sending the
initialized notification is fatal to the lifecycle — the run aborts with
the transport exception right after the two first requests, although the
tools/list exchange would have succeeded. -/
theorem notify_transport_failure_fatal :
    run envNotifyFails =
      ([initEvent, Event.post notifyBody (sessionHeaders "abc123")],
       Except.error PyError.transportError) ∧
    listStep envNotifyFails.listResp =
      Except.ok [(Json.str "ls", Json.str "list dir")] :=
  ⟨rfl, rfl⟩

/-- C8 amended: the initialized notification is sent as a JSON-RPC
notification — no `id` key, method `notifications/initialized`, the session
header attached — and its response is ignored entirely: any delivered
status (2xx or not) leaves the rest of the run unchanged, and no state is
kept. But a transport-level exception while sending it aborts the
lifecycle: only that kind of failure is fatal. -/
theorem notify_ignored_and_transport_fatal (env : Env) (i : InitOk)
    (r1 r2 : HttpResponse)
    (hi : initializeStep env.initResp = Except.ok i) :
    run { env with notifyResp := Except.ok r1 } =
      run { env with notifyResp := Except.ok r2 } ∧
    notifyBody.getField "id" = none ∧
    notifyBody.getField "method" = some (Json.str "notifications/initialized") ∧
    (run env).1.get? 1 = some (Event.post notifyBody (sessionHeaders i.sessionId)) ∧
    run { env with notifyResp := Except.error () } =
      ([initEvent, Event.post notifyBody (sessionHeaders i.sessionId)],
       Except.error PyError.transportError) := by
  refine ⟨?_, rfl, rfl, ?_, ?_⟩
  · have h1 : initializeStep ({ env with notifyResp := Except.ok r1 }).initResp =
      .ok i := hi
    have h2 : initializeStep ({ env with notifyResp := Except.ok r2 }).initResp =
      .ok i := hi
    simp [run, h1, h2]
  · rcases run_trace_cases env i hi with h | h | h | h <;> rw [h] <;> rfl
  · have h3 : initializeStep ({ env with notifyResp :=
      (Except.error () : TransportResult) }).initResp = .ok i := hi
    simp [run, h3]

/-- C8 witness: in the all-successful environment the notification response
status is irrelevant (202 and 500 give identical runs) and the second
request of the run is the id-less notification with the session header. -/
theorem notify_ignored_witness :
    run { envAllOk with notifyResp := Except.ok okNotify } =
      run { envAllOk with notifyResp := Except.ok ⟨500, [], Json.null⟩ } ∧
    (run envAllOk).1.get? 1 =
      some (Event.post notifyBody (sessionHeaders "abc123")) := by
  have h := notify_ignored_and_transport_fatal envAllOk
    ⟨"abc123", Json.str "demo", Json.str "1.0"⟩ okNotify ⟨500, [], Json.null⟩ rfl
  exact ⟨h.1, h.2.2.2.1⟩

/-- C4 counterexample (spec-modelled client): `close` on a `Failed` session
is allowed by the documented preconditions and issues the termination
DELETE, so it is not true that every operation against a terminal (Closed
or Failed) session avoids network I/O and fails with a precondition
error. -/
theorem close_on_failed_attempts_network :
    (clientStep SessionState.failed "abc123" 9 ClientOp.opClose
      (Except.ok okDelete)).sends = [Event.delete (sessionHeaders "abc123")] ∧
    (clientStep SessionState.failed "abc123" 9 ClientOp.opClose
      (Except.ok okDelete)).result ≠ OpResult.preconditionError := by
  refine ⟨rfl, ?_⟩
  intro h
  exact OpResult.noConfusion h

/-- C4 amended (spec-modelled client): `callTool` against any session that
is not `Active` — in particular before a successful `initialize` — fails
with a precondition error and issues no network request; every operation
other than `close` against a terminal (`Closed` or `Failed`) session does
the same; and `close` on an already-`Closed` session is an idempotent no-op
without network I/O. Only `close` on a `Failed` session still performs the
termination request. -/
theorem precondition_gating (s : SessionState) (sid : String) (reqId : Int)
    (name : String) (args : Json) (r : TransportResult) :
    (s ≠ SessionState.active →
      clientStep s sid reqId (ClientOp.opCallTool name args) r =
        ⟨s, [], OpResult.preconditionError⟩) ∧
    (∀ op : ClientOp, (s = SessionState.closed ∨ s = SessionState.failed) →
      op ≠ ClientOp.opClose →
      clientStep s sid reqId op r = ⟨s, [], OpResult.preconditionError⟩) ∧
    clientStep SessionState.closed sid reqId ClientOp.opClose r =
      ⟨SessionState.closed, [], OpResult.closedNoop⟩ := by
  refine ⟨?_, ?_, rfl⟩
  · intro hs
    cases s
    · rfl
    · rfl
    · exact absurd rfl hs
    · rfl
    · rfl
  · intro op hs hop
    rcases hs with h | h <;> subst h <;> cases op
    · rfl
    · rfl
    · rfl
    · rfl
    · exact absurd rfl hop
    · rfl
    · rfl
    · rfl
    · rfl
    · exact absurd rfl hop

/-- C4 witness (spec-modelled client): against a `Closed` session, calling
the `ls` tool and listing tools both fail fast with a precondition error
and no request. -/
theorem precondition_gating_witness :
    clientStep SessionState.closed "abc123" 9
      (ClientOp.opCallTool "ls" Json.null) (Except.ok okDelete) =
      ⟨SessionState.closed, [], OpResult.preconditionError⟩ ∧
    clientStep SessionState.closed "abc123" 9 ClientOp.opListTools
      (Except.ok okDelete) =
      ⟨SessionState.closed, [], OpResult.preconditionError⟩ := by
  have h := precondition_gating SessionState.closed "abc123" 9 "ls" Json.null
    (Except.ok okDelete)
  refine ⟨h.1 ?_, h.2.1 ClientOp.opListTools (Or.inl rfl) ?_⟩
  · intro hh
    exact SessionState.noConfusion hh
  · intro hh
    exact ClientOp.noConfusion hh
